import Mathlib

/-!
Shallow embedding of the `armazem-hist` dairy-warehouse inventory application
(`app.py` route handlers and `models.py` credential helpers), together with
proofs about its stock, sales, reporting and credential operations.

Strings coming from web forms are modelled as `List Char`; Python `int` is
modelled as `Int`; Python `datetime.date` values are modelled by their
proleptic-Gregorian ordinal day number (`Nat`), which is faithful because
`date` comparison, `date` subtraction in days and `date + timedelta(days=n)`
are exactly ordinal comparison, ordinal subtraction and ordinal addition.
-/

namespace ArmazemHist

/-- ASCII whitespace, as stripped by Python's `str.strip()`. -/
def pySpace (c : Char) : Bool :=
  c == ' ' || c == '\t' || c == '\n' || c == '\r' || c == '\x0b' || c == '\x0c'

/-- Python `str.strip()`: remove leading and trailing whitespace. -/
def pyStrip (l : List Char) : List Char :=
  ((l.dropWhile pySpace).reverse.dropWhile pySpace).reverse

/-- Python `str.upper()` (ASCII-faithful). -/
def pyUpper (l : List Char) : List Char :=
  l.map Char.toUpper

/-- `lote.strip().upper()` as performed by `adicionar_produto_na_area`
(`app.py` line 172) and `editar_produto_em_area` (`app.py` line 411). -/
def normalizaLote (l : List Char) : List Char :=
  pyUpper (pyStrip l)

/-- Gregorian leap-year test. -/
def bissexto (y : Nat) : Bool :=
  (y % 4 == 0 && y % 100 != 0) || (y % 400 == 0)

/-- Days in the months strictly before month `m` of a year whose leap status is `b`. -/
def diasAntesDoMes (b : Bool) (m : Nat) : Nat :=
  (List.take (m - 1) [31, if b then 29 else 28, 31, 30, 31, 30, 31, 31, 30, 31, 30, 31]).sum

/-- Proleptic-Gregorian ordinal day number of the calendar date `y-m-d`,
mirroring Python's `date.toordinal()`. -/
def toOrdinal (y m d : Nat) : Nat :=
  365 * (y - 1) + (y - 1) / 4 + (y - 1) / 400 - (y - 1) / 100 + diasAntesDoMes (bissexto y) m + d

/-- A row of the `users` table (`models.py`). -/
structure UserRow where
  username : String
  password_hash : String
  role : String
deriving DecidableEq

/-- `get_user_by_username` (`models.py`): look the user up by username. -/
def get_user_by_username (users : List UserRow) (u : String) : Option UserRow :=
  users.find? (fun r => r.username == u)

/-- `check_user_password` (`models.py` lines 44-48): fetch the user by name and
compare the password against the stored hash.  The hashing primitive
`check_password_hash` is an external library call, abstracted as `chk`. -/
def check_user_password (chk : String → String → Bool) (users : List UserRow)
    (username password : String) : Option UserRow :=
  match get_user_by_username users username with
  | some user => if chk user.password_hash password then some user else none
  | none => none

/-- A catalog product (`ProdutoCatalogo` in the models module). -/
structure ProdutoCatalogo where
  id_produto : String
  nome : String
deriving DecidableEq

/-- A storage area (`AreaArmazem` in the models module). -/
structure AreaArmazem where
  id_area : String
  nome : String
  tipo_armazenamento : String
deriving DecidableEq

/-- A stock instance (`ProdutoLacteo` in the models module): one batch of a
catalog product in an area.  `data_validade` is the expiry date's ordinal. -/
structure ProdutoLacteo where
  id : Nat
  id_catalogo_produto : String
  nome : String
  quantidade : Int
  data_validade : Nat
  lote : List Char
  area_id : String
deriving DecidableEq

/-- A sale record (`Venda`), with the fields `vender_produto_da_area` passes
to its constructor (`app.py` lines 228-237). -/
structure Venda where
  id_catalogo_produto : String
  nome : String
  lote : List Char
  data_validade_produto : Nat
  quantidade_vendida : Int
  destino : List Char
  area_origem_id : String
  usuario_responsavel : String
deriving DecidableEq

/-- The persistent store behind the models module: areas, the product catalog,
all stock instances, the sales ledger and the next system-assigned instance id. -/
structure Store where
  areas : List AreaArmazem
  catalogo : List ProdutoCatalogo
  produtos : List ProdutoLacteo
  vendas : List Venda
  nextId : Nat
deriving DecidableEq

/-- Modelled from the spec: `AreaArmazem.listar_produtos` is imported by
`app.py` from the models module but is absent from the sources; per the spec
an area owns the stock instances that reference it. -/
def listar_produtos (s : Store) (a : AreaArmazem) : List ProdutoLacteo :=
  s.produtos.filter (fun p => p.area_id == a.id_area)

/-- `AreaArmazem.buscar_por_id`: look an area up by id. -/
def buscar_area (s : Store) (idArea : String) : Option AreaArmazem :=
  s.areas.find? (fun a => a.id_area == idArea)

/-- `ProdutoLacteo.buscar_instancia_por_id`: look a stock instance up by its
system-assigned id, across all areas. -/
def buscar_instancia_por_id (s : Store) (idInst : Nat) : Option ProdutoLacteo :=
  s.produtos.find? (fun p => p.id == idInst)

/-- Failure reasons surfaced by the route handlers (as flash messages). -/
inductive OpErr where
  | areaNotFound
  | invalidQuantity
  | catalogNotFound
  | instanceNotFound
  | wrongArea
  | insufficientStock
  | inUse
deriving DecidableEq

/-- Outcome of the sell route. -/
inductive VendaOutcome where
  | ok (v : Venda)
  | err (e : OpErr)
deriving DecidableEq

/-- Outcome of the add/edit routes. -/
inductive AddOutcome where
  | ok
  | err (e : OpErr)
deriving DecidableEq

/-- Outcome of the delete routes. -/
inductive DelOutcome where
  | ok
  | err (e : OpErr)
deriving DecidableEq

/-- Modelled from the spec: `AreaArmazem.remover_produto` is imported by
`app.py` from the models module but is absent from the sources; per the spec
a sale decrements the instance's quantity by the sold amount (zero-quantity
rows are retained). -/
def remover_produto (s : Store) (idInst : Nat) (q : Int) : Store :=
  let ps := s.produtos.map
    (fun p => if p.id == idInst then { p with quantidade := p.quantidade - q } else p)
  { s with produtos := ps }

/-- `vender_produto_da_area` (`app.py` lines 185-249): validate the request in
source order (area, positive quantity, instance exists, instance belongs to
the area, sufficient stock), then decrement stock and append a `Venda` whose
fields snapshot the instance, with the destination stripped. -/
def vender_produto_da_area (s : Store) (idArea : String) (idInst : Nat) (q : Int)
    (destino : List Char) (usuario : String) : Store × VendaOutcome :=
  match buscar_area s idArea with
  | none => (s, .err .areaNotFound)
  | some area =>
    if q ≤ 0 then (s, .err .invalidQuantity)
    else
      match buscar_instancia_por_id s idInst with
      | none => (s, .err .instanceNotFound)
      | some produto =>
        if !((listar_produtos s area).any (fun p => p.id == idInst)) then
          (s, .err .wrongArea)
        else if produto.quantidade < q then
          (s, .err .insufficientStock)
        else
          let s1 := remover_produto s idInst q
          let v : Venda :=
            { id_catalogo_produto := produto.id_catalogo_produto
              nome := produto.nome
              lote := produto.lote
              data_validade_produto := produto.data_validade
              quantidade_vendida := q
              destino := pyStrip destino
              area_origem_id := idArea
              usuario_responsavel := usuario }
          ({ s1 with vendas := s1.vendas ++ [v] }, .ok v)

/-- The merge key of `addOrMerge`: same owning area, same catalog product,
same lot code. -/
def chaveMerge (areaId catId : String) (lote : List Char) (p : ProdutoLacteo) : Bool :=
  p.area_id == areaId && p.id_catalogo_produto == catId && p.lote == lote

/-- Update the first element satisfying `key` with `f`, leaving the rest. -/
def updateFirst (key : ProdutoLacteo → Bool) (f : ProdutoLacteo → ProdutoLacteo) :
    List ProdutoLacteo → List ProdutoLacteo
  | [] => []
  | p :: ps => if key p then f p :: ps else p :: updateFirst key f ps

/-- The stock instance created by `addOrMerge` when no merge key matches:
its id is the fresh system-assigned `s.nextId`. -/
def novaInstancia (s : Store) (a : AreaArmazem) (catId nome : String) (q : Int)
    (validade : Nat) (lote : List Char) : ProdutoLacteo :=
  { id := s.nextId, id_catalogo_produto := catId, nome := nome, quantidade := q,
    data_validade := validade, lote := lote, area_id := a.id_area }

/-- Modelled from the spec: `AreaArmazem.adicionar_produto` is imported by
`app.py` from the models module but is absent from the sources; per the spec
it merges with an existing instance that has the same catalog product and lot
in the area (incrementing its quantity in place), and otherwise creates a new
instance with a fresh system-assigned id. -/
def adicionar_produto (s : Store) (a : AreaArmazem) (catId nome : String) (q : Int)
    (validade : Nat) (lote : List Char) : Store :=
  if s.produtos.any (chaveMerge a.id_area catId lote) then
    let ps := updateFirst (chaveMerge a.id_area catId lote)
      (fun p => { p with quantidade := p.quantidade + q }) s.produtos
    { s with produtos := ps }
  else
    { s with
      produtos := s.produtos ++ [novaInstancia s a catId nome q validade lote]
      nextId := s.nextId + 1 }

/-- `adicionar_produto_na_area` (`app.py` lines 138-183): validate the area,
the positive quantity and the catalog product, then add-or-merge an instance
whose name is copied from the catalog and whose lot is stripped and uppercased. -/
def adicionar_produto_na_area (s : Store) (idArea catId : String) (q : Int)
    (validade : Nat) (lote : List Char) : Store × AddOutcome :=
  match buscar_area s idArea with
  | none => (s, .err .areaNotFound)
  | some area =>
    if q ≤ 0 then (s, .err .invalidQuantity)
    else
      match s.catalogo.find? (fun c => c.id_produto == catId) with
      | none => (s, .err .catalogNotFound)
      | some pc =>
        (adicionar_produto s area catId pc.nome q validade (normalizaLote lote), .ok)

/-- Modelled from the spec: `AreaArmazem.deletar` is imported by `app.py` from
the models module but is absent from the sources; per the spec deleting an
area fails with `InUse` while the area still owns stock instances, and never
cascade-deletes stock. -/
def area_deletar (s : Store) (a : AreaArmazem) : Store × DelOutcome :=
  if (listar_produtos s a).isEmpty then
    ({ s with areas := s.areas.filter (fun x => !(x.id_area == a.id_area)) }, .ok)
  else
    (s, .err .inUse)

/-- `excluir_area` (`app.py` lines 303-316): look the area up, then delegate
to `AreaArmazem.deletar`. -/
def excluir_area (s : Store) (idArea : String) : Store × DelOutcome :=
  match buscar_area s idArea with
  | none => (s, .err .areaNotFound)
  | some a => area_deletar s a

/-- Modelled from the spec: `ProdutoLacteo.atualizar_instancia` is imported by
`app.py` from the models module but is absent from the sources; per the spec
it updates the instance's quantity, expiry and lot in place, with no merge. -/
def atualizar_instancia (s : Store) (idInst : Nat) (q : Int) (validade : Nat)
    (lote : List Char) : Store :=
  let ps := updateFirst (fun p => p.id == idInst)
    (fun p => { p with quantidade := q, data_validade := validade, lote := lote })
    s.produtos
  { s with produtos := ps }

/-- `editar_produto_em_area` (`app.py` lines 380-425): validate area, instance
and area membership in source order, reject negative quantities, then update
the instance with the lot stripped and uppercased. -/
def editar_produto_em_area (s : Store) (idArea : String) (idInst : Nat) (q : Int)
    (validade : Nat) (lote : List Char) : Store × AddOutcome :=
  match buscar_area s idArea with
  | none => (s, .err .areaNotFound)
  | some area =>
    match buscar_instancia_por_id s idInst with
    | none => (s, .err .instanceNotFound)
    | some _ =>
      if !((listar_produtos s area).any (fun p => p.id == idInst)) then
        (s, .err .wrongArea)
      else if q < 0 then (s, .err .invalidQuantity)
      else (atualizar_instancia s idInst q validade (normalizaLote lote), .ok)

/-- Modelled from the spec: `ProdutoLacteo.deletar_instancia` is imported by
`app.py` from the models module but is absent from the sources; per the spec
it removes the instance entirely regardless of remaining quantity. -/
def deletar_instancia (s : Store) (idInst : Nat) : Store :=
  { s with produtos := s.produtos.filter (fun p => !(p.id == idInst)) }

/-- `excluir_produto_de_area` (`app.py` lines 427-448): validate area,
instance and area membership in source order, then delete the instance. -/
def excluir_produto_de_area (s : Store) (idArea : String) (idInst : Nat) :
    Store × DelOutcome :=
  match buscar_area s idArea with
  | none => (s, .err .areaNotFound)
  | some area =>
    match buscar_instancia_por_id s idInst with
    | none => (s, .err .instanceNotFound)
    | some _ =>
      if !((listar_produtos s area).any (fun p => p.id == idInst)) then
        (s, .err .wrongArea)
      else (deletar_instancia s idInst, .ok)

/-- Quantity recorded for catalog id `k` in the running total (0 if absent),
mirroring reads of the Python dict `estoque_total`. -/
def quantidadeDe (d : List (String × String × Int)) (k : String) : Int :=
  match d.find? (fun e => e.1 == k) with
  | some e => e.2.2
  | none => 0

/-- Whether catalog id `k` already has an entry (`chave_produto in estoque_total`). -/
def temChave (d : List (String × String × Int)) (k : String) : Bool :=
  d.any (fun e => e.1 == k)

/-- One iteration of the total-stock loop (`app.py` lines 456-460): create the
entry with the instance's name on first sight, then add its quantity. -/
def estoquePasso (d : List (String × String × Int)) (p : ProdutoLacteo) :
    List (String × String × Int) :=
  if temChave d p.id_catalogo_produto then
    d.map (fun e => if e.1 == p.id_catalogo_produto then (e.1, e.2.1, e.2.2 + p.quantidade) else e)
  else
    d ++ [(p.id_catalogo_produto, p.nome, p.quantidade)]

/-- Every stock instance of every area, in the nested-loop order of
`pagina_relatorios` (`app.py` lines 455-456). -/
def todasInstancias (s : Store) : List ProdutoLacteo :=
  s.areas.flatMap (fun a => listar_produtos s a)

/-- The `estoque_total` mapping of `pagina_relatorios` (`app.py` lines 454-460). -/
def estoque_total (s : Store) : List (String × String × Int) :=
  (todasInstancias s).foldl estoquePasso []

/-- Expiry-status classification of one instance (`app.py` lines 471-477):
`VENCIDO` when the expiry is strictly before today, `PROXIMO_VENCIMENTO` when
it is at most `dias` days away, otherwise no alert. -/
def classifica (hoje dias validade : Nat) : Option String :=
  if validade < hoje then some "VENCIDO"
  else if validade ≤ hoje + dias then some "PROXIMO_VENCIMENTO"
  else none

/-- One row of `produtos_alerta_validade` (`app.py` lines 480-486). -/
structure AlertaValidade where
  area_id : String
  nome_area : String
  produto : ProdutoLacteo
  status_validade : String
  dias_para_vencer : Int
deriving DecidableEq

/-- The alert row appended for one classified instance
(`app.py` lines 480-486). -/
def mkAlerta (hoje : Nat) (a : AreaArmazem) (p : ProdutoLacteo) (st : String) :
    AlertaValidade :=
  { area_id := a.id_area
    nome_area := a.nome
    produto := p
    status_validade := st
    dias_para_vencer := (p.data_validade : Int) - (hoje : Int) }

/-- The unsorted expiry-alert rows of `pagina_relatorios`
(`app.py` lines 469-486), for an arbitrary warning window `dias`. -/
def alertas_validade (s : Store) (hoje dias : Nat) : List AlertaValidade :=
  s.areas.flatMap (fun a => (listar_produtos s a).filterMap (fun p =>
    (classifica hoje dias p.data_validade).map (mkAlerta hoje a p)))

/-- The sort key of `app.py` line 488: `(status != "VENCIDO", dias_para_vencer)`. -/
def chaveAlerta (x : AlertaValidade) : Bool × Int :=
  (x.status_validade != "VENCIDO", x.dias_para_vencer)

/-- Lexicographic order on the sort key (`False < True` on the first
component, as in Python tuple comparison). -/
def chaveLe (x y : AlertaValidade) : Bool :=
  ((chaveAlerta x).1 == (chaveAlerta y).1 && decide ((chaveAlerta x).2 ≤ (chaveAlerta y).2))
    || (!(chaveAlerta x).1 && (chaveAlerta y).1)

/-- Insert into a list sorted by `chaveLe`. -/
def insereOrdenado (x : AlertaValidade) : List AlertaValidade → List AlertaValidade
  | [] => [x]
  | y :: ys => if chaveLe x y then x :: y :: ys else y :: insereOrdenado x ys

/-- Sort by `chaveLe` (the effect of `list.sort(key=...)` on line 488). -/
def ordenaAlertas : List AlertaValidade → List AlertaValidade
  | [] => []
  | x :: xs => insereOrdenado x (ordenaAlertas xs)

/-- The sorted `produtos_alerta_validade` list of `pagina_relatorios`, with
the source's 7-day warning window (`app.py` lines 464-488). -/
def produtos_alerta_validade (s : Store) (hoje : Nat) : List AlertaValidade :=
  ordenaAlertas (alertas_validade s hoje 7)

/-! ### Example data used to instantiate the theorems -/

def areaEx : AreaArmazem := ⟨"A1", "Camara Fria", "FRIO"⟩

def areaEx2 : AreaArmazem := ⟨"A2", "Deposito Seco", "SECO"⟩

def catEx : ProdutoCatalogo := ⟨"QJO", "Queijo Minas"⟩

def prodEx : ProdutoLacteo := ⟨1, "QJO", "Queijo Minas", 10, 738890, ['L', '1'], "A1"⟩

def prodEx2 : ProdutoLacteo := ⟨2, "QJO", "Queijo Minas", 5, 738900, ['L', '2'], "A2"⟩

def lojaEx : Store := ⟨[areaEx, areaEx2], [catEx], [prodEx, prodEx2], [], 3⟩

def chkEx : String → String → Bool := fun h pw => h == pw

def usersEx : List UserRow := [⟨"ana", "s3nh4", "gerente"⟩]

/-! ### General helper lemmas -/

lemma find?_map_update_id (i : Nat) (f : ProdutoLacteo → ProdutoLacteo)
    (hf : ∀ x, (f x).id = x.id) :
    ∀ (l : List ProdutoLacteo) (p : ProdutoLacteo),
      l.find? (fun x => x.id == i) = some p →
      (l.map (fun x => if x.id == i then f x else x)).find? (fun x => x.id == i) = some (f p)
  | [], p, h => by simp at h
  | x :: xs, p, h => by
    cases hx : (x.id == i) with
    | true =>
      simp only [List.find?, hx] at h
      injection h with h
      subst h
      have hfx : ((f x).id == i) = true := by rw [hf]; exact hx
      simp only [List.map_cons, hx, if_true, List.find?, hfx]
    | false =>
      simp only [List.find?, hx] at h
      simp only [List.map_cons, hx, Bool.false_eq_true, if_false, List.find?]
      exact find?_map_update_id i f hf xs p h

lemma find?_updateFirst_id (i : Nat) (f : ProdutoLacteo → ProdutoLacteo)
    (hf : ∀ x, (f x).id = x.id) :
    ∀ (l : List ProdutoLacteo) (p : ProdutoLacteo),
      l.find? (fun x => x.id == i) = some p →
      (updateFirst (fun x => x.id == i) f l).find? (fun x => x.id == i) = some (f p)
  | [], p, h => by simp at h
  | x :: xs, p, h => by
    cases hx : (x.id == i) with
    | true =>
      simp only [List.find?, hx] at h
      injection h with h
      subst h
      have hfx : ((f x).id == i) = true := by rw [hf]; exact hx
      simp only [updateFirst, hx, if_true, List.find?, hfx]
    | false =>
      simp only [List.find?, hx] at h
      simp only [updateFirst, hx, Bool.false_eq_true, if_false, List.find?]
      exact find?_updateFirst_id i f hf xs p h

lemma updateFirst_append_last (key : ProdutoLacteo → Bool) (f : ProdutoLacteo → ProdutoLacteo) :
    ∀ (l : List ProdutoLacteo) (x : ProdutoLacteo),
      (∀ p ∈ l, key p = false) → key x = true →
      updateFirst key f (l ++ [x]) = l ++ [f x]
  | [], x, _, hx => by simp [updateFirst, hx]
  | p :: ps, x, hl, hx => by
    have hp : key p = false := hl p (List.mem_cons_self p ps)
    rw [List.cons_append, updateFirst, hp]
    simp only [Bool.false_eq_true, if_false, List.cons_append, List.cons.injEq, true_and]
    exact updateFirst_append_last key f ps x (fun r hr => hl r (List.mem_cons_of_mem p hr)) hx

/-! ### C9: credential verification -/

/-- C9: `check_user_password` returns the stored user record exactly when the
user exists and the password matches the stored hash, and returns `none` both
when the user is missing and when the hash comparison fails; as a pure
function of the user table it has no side effect on the store. -/
theorem C9_check_user_password (chk : String → String → Bool) (users : List UserRow)
    (username password : String) :
    (∀ u : UserRow, check_user_password chk users username password = some u ↔
      (get_user_by_username users username = some u ∧ chk u.password_hash password = true)) ∧
    (get_user_by_username users username = none →
      check_user_password chk users username password = none) ∧
    (∀ u : UserRow, get_user_by_username users username = some u →
      chk u.password_hash password = false →
      check_user_password chk users username password = none) := by
  refine ⟨fun u => ?_, fun h => ?_, fun u h hc => ?_⟩
  · unfold check_user_password
    cases h : get_user_by_username users username with
    | none => simp
    | some u0 =>
      cases hc : chk u0.password_hash password with
      | true =>
        simp only [hc, if_true]
        constructor
        · intro h1
          injection h1 with h1
          subst h1
          exact ⟨rfl, hc⟩
        · rintro ⟨h1, _⟩
          injection h1 with h1
          rw [h1]
      | false =>
        simp only [hc, Bool.false_eq_true, if_false]
        constructor
        · intro h1
          cases h1
        · rintro ⟨h1, h2⟩
          injection h1 with h1
          subst h1
          rw [h2] at hc
          cases hc
  · unfold check_user_password
    rw [h]
  · unfold check_user_password
    rw [h]
    simp [hc]

/-- Witness for C9 at a concrete user table: the right password returns the
stored row, a wrong password returns `none`. -/
theorem C9_check_user_password_witness :
    check_user_password chkEx usersEx "ana" "s3nh4" = some ⟨"ana", "s3nh4", "gerente"⟩ ∧
    check_user_password chkEx usersEx "ana" "errada" = none :=
  ⟨((C9_check_user_password chkEx usersEx "ana" "s3nh4").1 _).mpr ⟨by decide, by decide⟩,
   (C9_check_user_password chkEx usersEx "ana" "errada").2.2 ⟨"ana", "s3nh4", "gerente"⟩
     (by decide) (by decide)⟩

/-! ### C6: deleting an area that still owns stock -/

/-- C6: deleting an area that still owns at least one stock instance fails
with `InUse` and leaves the whole store (the area and all its instances)
unchanged; stock is never cascade-deleted. -/
theorem C6_excluir_area_em_uso (s : Store) (idArea : String) (a : AreaArmazem)
    (ha : buscar_area s idArea = some a)
    (hne : listar_produtos s a ≠ []) :
    excluir_area s idArea = (s, .err .inUse) := by
  unfold excluir_area area_deletar
  rw [ha]
  cases hl : listar_produtos s a with
  | nil => exact absurd hl hne
  | cons p ps => simp [hl]

/-- Witness for C6: area `A1` of the example store owns an instance, so the
delete fails with `InUse` and returns the store untouched. -/
theorem C6_excluir_area_em_uso_witness :
    buscar_area lojaEx "A1" = some areaEx ∧ listar_produtos lojaEx areaEx ≠ [] ∧
    excluir_area lojaEx "A1" = (lojaEx, .err .inUse) :=
  ⟨by decide, by decide, C6_excluir_area_em_uso lojaEx "A1" areaEx (by decide) (by decide)⟩

/-! ### C7: instance/area mismatch -/

/-- C7: when the named instance exists but does not belong to the area named
in the request path, each instance-scoped operation (sell, edit, delete)
fails with the distinct `wrongArea` condition and performs no mutation. -/
theorem C7_area_incompativel (s : Store) (idArea : String) (idInst : Nat) (q : Int)
    (validade : Nat) (lote destino : List Char) (usuario : String)
    (area : AreaArmazem) (produto : ProdutoLacteo)
    (ha : buscar_area s idArea = some area)
    (hp : buscar_instancia_por_id s idInst = some produto)
    (hw : (listar_produtos s area).any (fun p => p.id == idInst) = false) :
    (0 < q → vender_produto_da_area s idArea idInst q destino usuario = (s, .err .wrongArea)) ∧
    editar_produto_em_area s idArea idInst q validade lote = (s, .err .wrongArea) ∧
    excluir_produto_de_area s idArea idInst = (s, .err .wrongArea) := by
  refine ⟨fun hq => ?_, ?_, ?_⟩
  · have hq0 : ¬ q ≤ 0 := not_le.mpr hq
    unfold vender_produto_da_area
    simp [ha, hp, hw, hq0]
  · unfold editar_produto_em_area
    simp [ha, hp, hw]
  · unfold excluir_produto_de_area
    simp [ha, hp, hw]

/-- Witness for C7: instance 2 lives in area `A2`, so selling, editing or
deleting it through area `A1` fails with `wrongArea` and leaves the store as
it was. -/
theorem C7_area_incompativel_witness :
    buscar_area lojaEx "A1" = some areaEx ∧
    buscar_instancia_por_id lojaEx 2 = some prodEx2 ∧
    (listar_produtos lojaEx areaEx).any (fun p => p.id == 2) = false ∧
    vender_produto_da_area lojaEx "A1" 2 1 [] "ana" = (lojaEx, .err .wrongArea) ∧
    editar_produto_em_area lojaEx "A1" 2 4 738901 ['L', '9'] = (lojaEx, .err .wrongArea) ∧
    excluir_produto_de_area lojaEx "A1" 2 = (lojaEx, .err .wrongArea) := by
  have h := C7_area_incompativel lojaEx "A1" 2 1 738901 ['L', '9'] [] "ana" areaEx prodEx2
    (by decide) (by decide) (by decide)
  have h2 := C7_area_incompativel lojaEx "A1" 2 4 738901 ['L', '9'] [] "ana" areaEx prodEx2
    (by decide) (by decide) (by decide)
  exact ⟨by decide, by decide, by decide, h.1 (by decide), h2.2.1, h.2.2⟩

/-! ### C1: successful sale -/

/-- C1: a sell request with `0 < q ≤ quantity`, for an existing instance that
belongs to the named area, decrements that instance's quantity by exactly `q`
and appends exactly one sale record whose `quantidade_vendida` is `q` and
whose catalog id, name, lot and expiry date snapshot the instance's values at
the time of sale; all other instances and the areas are untouched. -/
theorem C1_vender_sucesso (s : Store) (idArea : String) (idInst : Nat) (q : Int)
    (destino : List Char) (usuario : String) (area : AreaArmazem) (produto : ProdutoLacteo)
    (ha : buscar_area s idArea = some area)
    (hp : buscar_instancia_por_id s idInst = some produto)
    (hin : (listar_produtos s area).any (fun p => p.id == idInst) = true)
    (hq : 0 < q) (hle : q ≤ produto.quantidade) :
    (vender_produto_da_area s idArea idInst q destino usuario).1.vendas =
      s.vendas ++ [{ id_catalogo_produto := produto.id_catalogo_produto,
                     nome := produto.nome, lote := produto.lote,
                     data_validade_produto := produto.data_validade,
                     quantidade_vendida := q, destino := pyStrip destino,
                     area_origem_id := idArea, usuario_responsavel := usuario }] ∧
    buscar_instancia_por_id (vender_produto_da_area s idArea idInst q destino usuario).1 idInst =
      some { produto with quantidade := produto.quantidade - q } ∧
    (∀ x ∈ s.produtos, ¬(x.id = idInst) →
      x ∈ (vender_produto_da_area s idArea idInst q destino usuario).1.produtos) ∧
    (vender_produto_da_area s idArea idInst q destino usuario).1.areas = s.areas ∧
    (vender_produto_da_area s idArea idInst q destino usuario).2 =
      .ok { id_catalogo_produto := produto.id_catalogo_produto,
            nome := produto.nome, lote := produto.lote,
            data_validade_produto := produto.data_validade,
            quantidade_vendida := q, destino := pyStrip destino,
            area_origem_id := idArea, usuario_responsavel := usuario } := by
  have hq0 : ¬ q ≤ 0 := not_le.mpr hq
  have hlt : ¬ produto.quantidade < q := not_lt.mpr hle
  have hstep : vender_produto_da_area s idArea idInst q destino usuario =
      ({ areas := s.areas, catalogo := s.catalogo,
         produtos := s.produtos.map
           (fun p => if p.id == idInst then { p with quantidade := p.quantidade - q } else p),
         vendas := s.vendas ++ [{ id_catalogo_produto := produto.id_catalogo_produto,
                                  nome := produto.nome, lote := produto.lote,
                                  data_validade_produto := produto.data_validade,
                                  quantidade_vendida := q, destino := pyStrip destino,
                                  area_origem_id := idArea, usuario_responsavel := usuario }],
         nextId := s.nextId },
       .ok { id_catalogo_produto := produto.id_catalogo_produto,
             nome := produto.nome, lote := produto.lote,
             data_validade_produto := produto.data_validade,
             quantidade_vendida := q, destino := pyStrip destino,
             area_origem_id := idArea, usuario_responsavel := usuario }) := by
    unfold vender_produto_da_area remover_produto
    simp [ha, hp, hin, hq0, hlt]
  refine ⟨?_, ?_, ?_, ?_, ?_⟩
  · rw [hstep]
  · rw [hstep]
    unfold buscar_instancia_por_id at hp ⊢
    exact find?_map_update_id idInst
      (fun p => { p with quantidade := p.quantidade - q }) (fun _ => rfl) s.produtos produto hp
  · intro x hx hne
    rw [hstep]
    have hmem := List.mem_map_of_mem
      (fun p => if (p.id == idInst) = true then { p with quantidade := p.quantidade - q } else p) hx
    simpa [hne] using hmem
  · rw [hstep]
  · rw [hstep]

/-- Witness for C1: selling 4 of instance 1 from area `A1` of the example
store leaves it with quantity 6 and appends the one expected sale record. -/
theorem C1_vender_sucesso_witness :
    buscar_area lojaEx "A1" = some areaEx ∧
    buscar_instancia_por_id lojaEx 1 = some prodEx ∧
    (vender_produto_da_area lojaEx "A1" 1 4 [' ', 'F', 'e', 'i', 'r', 'a'] "ana").1.vendas =
      [{ id_catalogo_produto := "QJO", nome := "Queijo Minas", lote := ['L', '1'],
         data_validade_produto := 738890, quantidade_vendida := 4,
         destino := ['F', 'e', 'i', 'r', 'a'], area_origem_id := "A1",
         usuario_responsavel := "ana" }] ∧
    buscar_instancia_por_id
        (vender_produto_da_area lojaEx "A1" 1 4 [' ', 'F', 'e', 'i', 'r', 'a'] "ana").1 1 =
      some { prodEx with quantidade := 6 } := by
  have h := C1_vender_sucesso lojaEx "A1" 1 4 [' ', 'F', 'e', 'i', 'r', 'a'] "ana" areaEx prodEx
    (by decide) (by decide) (by decide) (by decide) (by decide)
  refine ⟨by decide, by decide, ?_, ?_⟩
  · rw [h.1]
    decide
  · rw [h.2.1]
    decide

/-! ### C2: failed sale has no side effects -/

/-- C2: whenever the sell route reports any failure it returns the store
unchanged (no stock mutation, no appended sale record); in particular a
request for more than the available quantity fails with `insufficientStock`
and leaves the store exactly as it was. -/
theorem C2_vender_falha_sem_efeito (s : Store) (idArea : String) (idInst : Nat) (q : Int)
    (destino : List Char) (usuario : String) :
    (∀ (s' : Store) (e : OpErr),
        vender_produto_da_area s idArea idInst q destino usuario = (s', .err e) → s' = s) ∧
    (∀ (area : AreaArmazem) (produto : ProdutoLacteo),
        buscar_area s idArea = some area →
        buscar_instancia_por_id s idInst = some produto →
        (listar_produtos s area).any (fun p => p.id == idInst) = true →
        0 < q → produto.quantidade < q →
        vender_produto_da_area s idArea idInst q destino usuario =
          (s, .err .insufficientStock)) := by
  constructor
  · intro s' e h
    unfold vender_produto_da_area at h
    split at h
    · injection h with h1 h2
      exact h1.symm
    · split at h
      · injection h with h1 h2
        exact h1.symm
      · split at h
        · injection h with h1 h2
          exact h1.symm
        · split at h
          · injection h with h1 h2
            exact h1.symm
          · split at h
            · injection h with h1 h2
              exact h1.symm
            · injection h with h1 h2
              cases h2
  · intro area produto ha hp hin hq hl
    have hq0 : ¬ q ≤ 0 := not_le.mpr hq
    unfold vender_produto_da_area
    simp [ha, hp, hin, hq0, hl]

/-- Witness for C2: requesting 99 units of instance 1 (stock 10) fails with
`insufficientStock` and returns the example store untouched. -/
theorem C2_vender_falha_sem_efeito_witness :
    vender_produto_da_area lojaEx "A1" 1 99 [] "ana" = (lojaEx, .err .insufficientStock) :=
  (C2_vender_falha_sem_efeito lojaEx "A1" 1 99 [] "ana").2 areaEx prodEx
    (by decide) (by decide) (by decide) (by decide) (by decide)

/-! ### C3: add-or-merge -/

lemma adicionar_uma_vez (s : Store) (idArea catId : String) (q : Int) (v : Nat)
    (lote : List Char) (area : AreaArmazem) (pc : ProdutoCatalogo)
    (ha : buscar_area s idArea = some area)
    (hc : s.catalogo.find? (fun c => c.id_produto == catId) = some pc)
    (hq : ¬ q ≤ 0)
    (hkey : s.produtos.any (chaveMerge area.id_area catId (normalizaLote lote)) = false) :
    adicionar_produto_na_area s idArea catId q v lote =
      ({ areas := s.areas, catalogo := s.catalogo,
         produtos := s.produtos ++ [novaInstancia s area catId pc.nome q v (normalizaLote lote)],
         vendas := s.vendas, nextId := s.nextId + 1 }, .ok) := by
  unfold adicionar_produto_na_area adicionar_produto
  simp [ha, hc, hq, hkey]

lemma adicionar_duas_vezes (s : Store) (idArea catId : String) (q1 q2 : Int) (v1 v2 : Nat)
    (l1 l2 : List Char) (area : AreaArmazem) (pc : ProdutoCatalogo)
    (ha : buscar_area s idArea = some area)
    (hc : s.catalogo.find? (fun c => c.id_produto == catId) = some pc)
    (hq1 : ¬ q1 ≤ 0) (hq2 : ¬ q2 ≤ 0)
    (hkey : s.produtos.any (chaveMerge area.id_area catId (normalizaLote l1)) = false)
    (hnorm : normalizaLote l2 = normalizaLote l1) :
    (adicionar_produto_na_area (adicionar_produto_na_area s idArea catId q1 v1 l1).1
        idArea catId q2 v2 l2).1.produtos =
      s.produtos ++ [{ novaInstancia s area catId pc.nome q1 v1 (normalizaLote l1) with
                       quantidade := q1 + q2 }] := by
  rw [adicionar_uma_vez s idArea catId q1 v1 l1 area pc ha hc hq1 hkey]
  set s1 : Store :=
    { areas := s.areas, catalogo := s.catalogo,
      produtos := s.produtos ++ [novaInstancia s area catId pc.nome q1 v1 (normalizaLote l1)],
      vendas := s.vendas, nextId := s.nextId + 1 } with hs1
  have ha1 : buscar_area s1 idArea = some area := ha
  have hc1 : s1.catalogo.find? (fun c => c.id_produto == catId) = some pc := hc
  have hany : s1.produtos.any (chaveMerge area.id_area catId (normalizaLote l1)) = true := by
    rw [hs1]
    show (s.produtos ++ [novaInstancia s area catId pc.nome q1 v1 (normalizaLote l1)]).any
      (chaveMerge area.id_area catId (normalizaLote l1)) = true
    rw [List.any_append]
    simp [chaveMerge, novaInstancia]
  unfold adicionar_produto_na_area adicionar_produto
  rw [hnorm]
  simp only [ha1, hc1, hq2, if_false, hany, if_true]
  show updateFirst (chaveMerge area.id_area catId (normalizaLote l1))
      (fun p => { p with quantidade := p.quantidade + q2 })
      (s.produtos ++ [novaInstancia s area catId pc.nome q1 v1 (normalizaLote l1)]) = _
  rw [updateFirst_append_last _ _ s.produtos _
    (fun p hp => by simpa using List.any_eq_false.mp hkey p hp)
    (by simp [chaveMerge, novaInstancia])]
  simp [novaInstancia]

/-- C3: with valid inputs and no instance yet matching the merge key, the
first `addOrMerge` creates a new instance with the fresh system-assigned id,
and a second call with the same (area, catalog product, lot) merges into that
same instance, leaving exactly one instance for the key whose quantity is the
sum of the two calls' quantities. -/
theorem C3_adicionar_ou_mesclar (s : Store) (idArea catId : String) (q1 q2 : Int)
    (v1 v2 : Nat) (lote : List Char) (area : AreaArmazem) (pc : ProdutoCatalogo)
    (ha : buscar_area s idArea = some area)
    (hc : s.catalogo.find? (fun c => c.id_produto == catId) = some pc)
    (hq1 : 0 < q1) (hq2 : 0 < q2)
    (hkey : s.produtos.any (chaveMerge area.id_area catId (normalizaLote lote)) = false)
    (hid : ∀ p ∈ s.produtos, p.id < s.nextId) :
    (adicionar_produto_na_area s idArea catId q1 v1 lote).1.produtos =
      s.produtos ++ [novaInstancia s area catId pc.nome q1 v1 (normalizaLote lote)] ∧
    (novaInstancia s area catId pc.nome q1 v1 (normalizaLote lote)).id = s.nextId ∧
    (∀ p ∈ s.produtos,
      p.id ≠ (novaInstancia s area catId pc.nome q1 v1 (normalizaLote lote)).id) ∧
    (adicionar_produto_na_area (adicionar_produto_na_area s idArea catId q1 v1 lote).1
        idArea catId q2 v2 lote).1.produtos =
      s.produtos ++ [{ novaInstancia s area catId pc.nome q1 v1 (normalizaLote lote) with
                       quantidade := q1 + q2 }] ∧
    (adicionar_produto_na_area (adicionar_produto_na_area s idArea catId q1 v1 lote).1
        idArea catId q2 v2 lote).1.produtos.countP
      (chaveMerge area.id_area catId (normalizaLote lote)) = 1 := by
  have hq1' : ¬ q1 ≤ 0 := not_le.mpr hq1
  have hq2' : ¬ q2 ≤ 0 := not_le.mpr hq2
  have h1 := adicionar_uma_vez s idArea catId q1 v1 lote area pc ha hc hq1' hkey
  have h2 := adicionar_duas_vezes s idArea catId q1 q2 v1 v2 lote lote area pc ha hc
    hq1' hq2' hkey rfl
  refine ⟨by rw [h1], rfl, fun p hp => Nat.ne_of_lt (hid p hp), h2, ?_⟩
  rw [h2, List.countP_append]
  have hz : s.produtos.countP (chaveMerge area.id_area catId (normalizaLote lote)) = 0 :=
    List.countP_eq_zero.mpr (fun p hp => by simpa using List.any_eq_false.mp hkey p hp)
  rw [hz]
  simp [List.countP, List.countP.go, chaveMerge, novaInstancia]

/-- Witness for C3: adding lot `l3` of product `QJO` twice (quantities 2 and
3) to area `A1` of the example store yields exactly one instance for that
merge key, with quantity 5 and the fresh id 3. -/
theorem C3_adicionar_ou_mesclar_witness :
    buscar_area lojaEx "A1" = some areaEx ∧
    lojaEx.produtos.any (chaveMerge "A1" "QJO" (normalizaLote ['l', '3'])) = false ∧
    (adicionar_produto_na_area (adicionar_produto_na_area lojaEx "A1" "QJO" 2 738950 ['l', '3']).1
        "A1" "QJO" 3 738951 ['l', '3']).1.produtos.countP
      (chaveMerge "A1" "QJO" (normalizaLote ['l', '3'])) = 1 ∧
    (adicionar_produto_na_area lojaEx "A1" "QJO" 2 738950 ['l', '3']).1.produtos =
      lojaEx.produtos ++ [⟨3, "QJO", "Queijo Minas", 2, 738950, ['L', '3'], "A1"⟩] := by
  have h := C3_adicionar_ou_mesclar lojaEx "A1" "QJO" 2 3 738950 738951 ['l', '3'] areaEx catEx
    (by decide) (by decide) (by decide) (by decide) (by decide) (by decide)
  refine ⟨by decide, by decide, h.2.2.2.2, ?_⟩
  rw [h.1]
  decide

/-! ### C10: lot codes are stripped and uppercased -/

lemma dropWhile_append_of_all : ∀ (w r : List Char), w.all pySpace = true →
    (w ++ r).dropWhile pySpace = r.dropWhile pySpace
  | [], _, _ => rfl
  | c :: w, r, h => by
    simp only [List.all_cons, Bool.and_eq_true] at h
    simp only [List.cons_append, List.dropWhile_cons, h.1, if_true]
    exact dropWhile_append_of_all w r h.2

lemma dropWhile_of_all (w : List Char) (h : w.all pySpace = true) :
    w.dropWhile pySpace = [] := by
  have h0 := dropWhile_append_of_all w [] h
  rw [List.append_nil] at h0
  exact h0

lemma all_pySpace_reverse (w : List Char) (h : w.all pySpace = true) :
    w.reverse.all pySpace = true := by
  rw [List.all_eq_true] at h ⊢
  intro c hc
  exact h c (List.mem_reverse.mp hc)

lemma length_dropWhile_pySpace_le : ∀ (l : List Char),
    (l.dropWhile pySpace).length ≤ l.length
  | [] => Nat.le_refl 0
  | c :: l => by
    cases h : pySpace c with
    | true =>
      simp only [List.dropWhile_cons, h, if_true, List.length_cons]
      exact Nat.le_trans (length_dropWhile_pySpace_le l) (Nat.le_succ _)
    | false =>
      simp only [List.dropWhile_cons, h, Bool.false_eq_true, if_false, List.length_cons]
      exact Nat.le_refl _

lemma pyStrip_decomp (w1 c w2 : List Char)
    (h1 : w1.all pySpace = true) (h2 : w2.all pySpace = true)
    (hcA : c.dropWhile pySpace = c) (hcB : c.reverse.dropWhile pySpace = c.reverse) :
    pyStrip (w1 ++ c ++ w2) = c := by
  unfold pyStrip
  rw [List.append_assoc, dropWhile_append_of_all w1 (c ++ w2) h1]
  cases c with
  | nil =>
    simp only [List.nil_append]
    rw [dropWhile_of_all w2 h2]
    rfl
  | cons ch ct =>
    have hch : pySpace ch = false := by
      cases hcontra : pySpace ch with
      | false => rfl
      | true =>
        exfalso
        rw [List.dropWhile_cons, hcontra] at hcA
        simp only [if_true] at hcA
        have hlen := length_dropWhile_pySpace_le ct
        rw [hcA] at hlen
        simp at hlen
    rw [List.cons_append, List.dropWhile_cons, hch]
    simp only [Bool.false_eq_true, if_false]
    rw [List.reverse_cons] at hcB
    rw [List.reverse_cons, List.reverse_append, List.append_assoc,
      dropWhile_append_of_all w2.reverse _ (all_pySpace_reverse w2 h2)]
    have hstep : (ct.reverse ++ [ch]).dropWhile pySpace = ct.reverse ++ [ch] := hcB
    rw [hstep, List.reverse_append, List.reverse_reverse]
    rfl

lemma normalizaLote_decomp (w1 c w2 : List Char)
    (h1 : w1.all pySpace = true) (h2 : w2.all pySpace = true)
    (hcA : c.dropWhile pySpace = c) (hcB : c.reverse.dropWhile pySpace = c.reverse) :
    normalizaLote (w1 ++ c ++ w2) = pyUpper c := by
  unfold normalizaLote
  rw [pyStrip_decomp w1 c w2 h1 h2 hcA hcB]

/-- C10: the lot code of an add or edit request is stored after stripping
surrounding whitespace and uppercasing, so two submitted lot codes that
differ only in letter case or surrounding whitespace share one merge key: the
second add merges into the instance the first one created, and an edit stores
the normalized lot on the addressed instance. -/
theorem C10_lote_normalizado
    (w1 c1 w2 w3 c2 w4 : List Char)
    (s : Store) (idArea catId : String) (q1 q2 qe : Int) (v1 v2 ve : Nat)
    (idInst : Nat) (area : AreaArmazem) (pc : ProdutoCatalogo) (produto : ProdutoLacteo)
    (hw1 : w1.all pySpace = true) (hw2 : w2.all pySpace = true)
    (hw3 : w3.all pySpace = true) (hw4 : w4.all pySpace = true)
    (hc1A : c1.dropWhile pySpace = c1) (hc1B : c1.reverse.dropWhile pySpace = c1.reverse)
    (hc2A : c2.dropWhile pySpace = c2) (hc2B : c2.reverse.dropWhile pySpace = c2.reverse)
    (hcase : pyUpper c1 = pyUpper c2)
    (ha : buscar_area s idArea = some area)
    (hcat : s.catalogo.find? (fun c => c.id_produto == catId) = some pc)
    (hq1 : 0 < q1) (hq2 : 0 < q2)
    (hkey : s.produtos.any
      (chaveMerge area.id_area catId (normalizaLote (w1 ++ c1 ++ w2))) = false)
    (hp : buscar_instancia_por_id s idInst = some produto)
    (hin : (listar_produtos s area).any (fun p => p.id == idInst) = true)
    (hqe : 0 ≤ qe) :
    normalizaLote (w1 ++ c1 ++ w2) = normalizaLote (w3 ++ c2 ++ w4) ∧
    (adicionar_produto_na_area s idArea catId q1 v1 (w1 ++ c1 ++ w2)).1.produtos =
      s.produtos ++ [novaInstancia s area catId pc.nome q1 v1 (pyUpper c1)] ∧
    (adicionar_produto_na_area
        (adicionar_produto_na_area s idArea catId q1 v1 (w1 ++ c1 ++ w2)).1
        idArea catId q2 v2 (w3 ++ c2 ++ w4)).1.produtos =
      s.produtos ++ [{ novaInstancia s area catId pc.nome q1 v1 (pyUpper c1) with
                       quantidade := q1 + q2 }] ∧
    buscar_instancia_por_id
        (editar_produto_em_area s idArea idInst qe ve (w1 ++ c1 ++ w2)).1 idInst =
      some { produto with quantidade := qe, data_validade := ve, lote := pyUpper c1 } := by
  have hn1 : normalizaLote (w1 ++ c1 ++ w2) = pyUpper c1 :=
    normalizaLote_decomp w1 c1 w2 hw1 hw2 hc1A hc1B
  have hn2 : normalizaLote (w3 ++ c2 ++ w4) = pyUpper c2 :=
    normalizaLote_decomp w3 c2 w4 hw3 hw4 hc2A hc2B
  have hq1' : ¬ q1 ≤ 0 := not_le.mpr hq1
  have hq2' : ¬ q2 ≤ 0 := not_le.mpr hq2
  refine ⟨by rw [hn1, hn2, hcase], ?_, ?_, ?_⟩
  · rw [adicionar_uma_vez s idArea catId q1 v1 (w1 ++ c1 ++ w2) area pc ha hcat hq1' hkey,
      hn1]
  · rw [adicionar_duas_vezes s idArea catId q1 q2 v1 v2 (w1 ++ c1 ++ w2) (w3 ++ c2 ++ w4)
      area pc ha hcat hq1' hq2' hkey (by rw [hn1, hn2, hcase]), hn1]
  · have hqe' : ¬ qe < 0 := not_lt.mpr hqe
    have hprod : (editar_produto_em_area s idArea idInst qe ve (w1 ++ c1 ++ w2)).1.produtos =
        updateFirst (fun p => p.id == idInst)
          (fun p =>
            { p with quantidade := qe, data_validade := ve,
                     lote := normalizaLote (w1 ++ c1 ++ w2) })
          s.produtos := by
      unfold editar_produto_em_area atualizar_instancia
      simp [ha, hp, hin, hqe']
    unfold buscar_instancia_por_id at hp ⊢
    rw [hprod]
    have hfind := find?_updateFirst_id idInst
      (fun p =>
        { p with quantidade := qe, data_validade := ve,
                 lote := normalizaLote (w1 ++ c1 ++ w2) })
      (fun _ => rfl) s.produtos produto hp
    rw [hfind, hn1]

/-- Witness for C10: the spellings `" l3"` and `"L3 "` of the same lot are
normalized to `L3`, and editing instance 1 with the lot `" l3"` stores `L3`. -/
theorem C10_lote_normalizado_witness :
    normalizaLote [' ', 'l', '3'] = normalizaLote ['L', '3', ' '] ∧
    buscar_instancia_por_id (editar_produto_em_area lojaEx "A1" 1 7 738999 [' ', 'l', '3']).1 1 =
      some { prodEx with quantidade := 7, data_validade := 738999, lote := ['L', '3'] } := by
  have h := C10_lote_normalizado [' '] ['l', '3'] [] [] ['L', '3'] [' ']
    lojaEx "A1" "QJO" 2 3 7 738950 738951 738999 1 areaEx catEx prodEx
    (by decide) (by decide) (by decide) (by decide) (by decide) (by decide) (by decide)
    (by decide) (by decide) (by decide) (by decide) (by decide) (by decide) (by decide)
    (by decide) (by decide) (by decide)
  exact ⟨h.1, h.2.2.2⟩

/-! ### C4: expiry-alert classification -/

def pJan05 : ProdutoLacteo :=
  ⟨1, "QJO", "Queijo Minas", 3, toOrdinal 2024 1 5, ['L', '1'], "A1"⟩

def pJan15 : ProdutoLacteo :=
  ⟨2, "QJO", "Queijo Minas", 3, toOrdinal 2024 1 15, ['L', '2'], "A1"⟩

def pFev01 : ProdutoLacteo :=
  ⟨3, "QJO", "Queijo Minas", 3, toOrdinal 2024 2 1, ['L', '3'], "A1"⟩

def lojaC4 : Store := ⟨[areaEx], [catEx], [pJan05, pJan15, pFev01], [], 4⟩

lemma mem_alertas_validade (s : Store) (hoje dias : Nat) (e : AlertaValidade) :
    e ∈ alertas_validade s hoje dias ↔
      ∃ a ∈ s.areas, ∃ p ∈ listar_produtos s a, ∃ st,
        classifica hoje dias p.data_validade = some st ∧ mkAlerta hoje a p st = e := by
  unfold alertas_validade
  simp [List.mem_flatMap, List.mem_filterMap, Option.map_eq_some']

lemma classifica_cases (hoje dias v : Nat) (st : String)
    (h : classifica hoje dias v = some st) :
    (st = "VENCIDO" ∧ v < hoje) ∨
    (st = "PROXIMO_VENCIMENTO" ∧ hoje ≤ v ∧ v ≤ hoje + dias) := by
  unfold classifica at h
  by_cases h1 : v < hoje
  · rw [if_pos h1] at h
    injection h with h
    exact Or.inl ⟨h.symm, h1⟩
  · rw [if_neg h1] at h
    by_cases h2 : v ≤ hoje + dias
    · rw [if_pos h2] at h
      injection h with h
      exact Or.inr ⟨h.symm, not_lt.mp h1, h2⟩
    · rw [if_neg h2] at h
      cases h

lemma classifica_vencido (hoje dias v : Nat) (h : v < hoje) :
    classifica hoje dias v = some "VENCIDO" := by
  unfold classifica
  rw [if_pos h]

lemma classifica_proximo (hoje dias v : Nat) (h1 : ¬ v < hoje) (h2 : v ≤ hoje + dias) :
    classifica hoje dias v = some "PROXIMO_VENCIMENTO" := by
  unfold classifica
  rw [if_neg h1, if_pos h2]

lemma alertas_sound (s : Store) (hoje dias : Nat) (e : AlertaValidade)
    (he : e ∈ alertas_validade s hoje dias) :
    (e.status_validade = "VENCIDO" ↔ e.produto.data_validade < hoje) ∧
    (e.status_validade = "PROXIMO_VENCIMENTO" ↔
      (hoje ≤ e.produto.data_validade ∧ e.produto.data_validade ≤ hoje + dias)) ∧
    e.produto.data_validade ≤ hoje + dias ∧
    e.dias_para_vencer = (e.produto.data_validade : Int) - (hoje : Int) := by
  rw [mem_alertas_validade] at he
  obtain ⟨a, _, p, _, st, hst, hmk⟩ := he
  subst hmk
  rcases classifica_cases hoje dias p.data_validade st hst with ⟨hstv, hv⟩ | ⟨hstv, hv1, hv2⟩
  · subst hstv
    refine ⟨?_, ?_, ?_, ?_⟩
    · exact iff_of_true rfl hv
    · exact ⟨fun hx => absurd (show "VENCIDO" = "PROXIMO_VENCIMENTO" from hx) (by decide),
        fun hx => absurd hx.1 (not_le.mpr hv)⟩
    · show p.data_validade ≤ hoje + dias
      omega
    · rfl
  · subst hstv
    refine ⟨?_, ?_, ?_, ?_⟩
    · exact ⟨fun hx => absurd (show "PROXIMO_VENCIMENTO" = "VENCIDO" from hx) (by decide),
        fun hx => absurd hx (not_lt.mpr hv1)⟩
    · exact iff_of_true rfl ⟨hv1, hv2⟩
    · show p.data_validade ≤ hoje + dias
      omega
    · rfl

lemma alertas_complete (s : Store) (hoje dias : Nat) :
    ∀ a ∈ s.areas, ∀ p ∈ listar_produtos s a, p.data_validade ≤ hoje + dias →
      ∃ e ∈ alertas_validade s hoje dias, e.produto = p ∧ e.area_id = a.id_area := by
  intro a ha p hp hb
  by_cases hv : p.data_validade < hoje
  · exact ⟨mkAlerta hoje a p "VENCIDO",
      (mem_alertas_validade s hoje dias _).mpr
        ⟨a, ha, p, hp, "VENCIDO", classifica_vencido hoje dias _ hv, rfl⟩, rfl, rfl⟩
  · exact ⟨mkAlerta hoje a p "PROXIMO_VENCIMENTO",
      (mem_alertas_validade s hoje dias _).mpr
        ⟨a, ha, p, hp, "PROXIMO_VENCIMENTO", classifica_proximo hoje dias _ hv hb, rfl⟩,
      rfl, rfl⟩

/-- C4: an alert row is `VENCIDO` exactly when the instance's expiry is
strictly before the as-of date, `PROXIMO_VENCIMENTO` exactly when the expiry
is not before the as-of date and at most the as-of date plus the warning
window, and instances beyond the window are omitted while every instance
inside it appears; with as-of date 2024-01-10 and the source's 7-day window,
expiry 2024-01-05 is reported `VENCIDO`, 2024-01-15 `PROXIMO_VENCIMENTO`, and
2024-02-01 is omitted. -/
theorem C4_classificacao_alertas (s : Store) (hoje dias : Nat) :
    (∀ e ∈ alertas_validade s hoje dias,
      (e.status_validade = "VENCIDO" ↔ e.produto.data_validade < hoje) ∧
      (e.status_validade = "PROXIMO_VENCIMENTO" ↔
        (hoje ≤ e.produto.data_validade ∧ e.produto.data_validade ≤ hoje + dias)) ∧
      e.produto.data_validade ≤ hoje + dias) ∧
    (∀ a ∈ s.areas, ∀ p ∈ listar_produtos s a, p.data_validade ≤ hoje + dias →
      ∃ e ∈ alertas_validade s hoje dias, e.produto = p ∧ e.area_id = a.id_area) ∧
    produtos_alerta_validade lojaC4 (toOrdinal 2024 1 10) =
      [mkAlerta (toOrdinal 2024 1 10) areaEx pJan05 "VENCIDO",
       mkAlerta (toOrdinal 2024 1 10) areaEx pJan15 "PROXIMO_VENCIMENTO"] := by
  refine ⟨fun e he => ?_, alertas_complete s hoje dias, by decide⟩
  have h := alertas_sound s hoje dias e he
  exact ⟨h.1, h.2.1, h.2.2.1⟩

/-- Witness for C4: the 2024-01-15 instance is within the window on
2024-01-10, and the report indeed contains an entry for it in area `A1`. -/
theorem C4_classificacao_alertas_witness :
    areaEx ∈ lojaC4.areas ∧ pJan15 ∈ listar_produtos lojaC4 areaEx ∧
    pJan15.data_validade ≤ toOrdinal 2024 1 10 + 7 ∧
    ∃ e ∈ alertas_validade lojaC4 (toOrdinal 2024 1 10) 7,
      e.produto = pJan15 ∧ e.area_id = "A1" :=
  ⟨by decide, by decide, by decide,
   (C4_classificacao_alertas lojaC4 (toOrdinal 2024 1 10) 7).2.1 areaEx (by decide) pJan15
     (by decide) (by decide)⟩

/-! ### C5: expiry-alert ordering -/

lemma chaveLe_total (x y : AlertaValidade) : chaveLe x y = true ∨ chaveLe y x = true := by
  unfold chaveLe
  cases hx : (chaveAlerta x).1 <;> cases hy : (chaveAlerta y).1 <;>
    simp [hx, hy] <;> omega

lemma chaveLe_trans (x y z : AlertaValidade) (h1 : chaveLe x y = true)
    (h2 : chaveLe y z = true) : chaveLe x z = true := by
  unfold chaveLe at h1 h2 ⊢
  cases hx : (chaveAlerta x).1 <;> cases hy : (chaveAlerta y).1 <;>
    cases hz : (chaveAlerta z).1 <;> simp_all <;> omega

lemma mem_insereOrdenado (x : AlertaValidade) :
    ∀ (l : List AlertaValidade) (z : AlertaValidade),
      z ∈ insereOrdenado x l ↔ z = x ∨ z ∈ l
  | [], z => by simp [insereOrdenado]
  | y :: ys, z => by
    unfold insereOrdenado
    by_cases h : chaveLe x y = true
    · rw [if_pos h]
      simp only [List.mem_cons]
    · rw [if_neg h]
      rw [List.mem_cons, List.mem_cons, mem_insereOrdenado x ys z]
      tauto

lemma pairwise_insereOrdenado (x : AlertaValidade) (l : List AlertaValidade)
    (hl : List.Pairwise (fun a b => chaveLe a b = true) l) :
    List.Pairwise (fun a b => chaveLe a b = true) (insereOrdenado x l) := by
  induction l with
  | nil => simp [insereOrdenado]
  | cons y ys ih =>
    rcases List.pairwise_cons.mp hl with ⟨hy, hys⟩
    unfold insereOrdenado
    by_cases h : chaveLe x y = true
    · rw [if_pos h]
      refine List.pairwise_cons.mpr ⟨?_, hl⟩
      intro z hz
      rcases List.mem_cons.mp hz with rfl | hz2
      · exact h
      · exact chaveLe_trans x y z h (hy z hz2)
    · rw [if_neg h]
      have hyx : chaveLe y x = true := (chaveLe_total x y).resolve_left h
      refine List.pairwise_cons.mpr ⟨?_, ih hys⟩
      intro z hz
      rcases (mem_insereOrdenado x ys z).mp hz with rfl | hz2
      · exact hyx
      · exact hy z hz2

lemma pairwise_ordenaAlertas :
    ∀ l : List AlertaValidade,
      List.Pairwise (fun a b => chaveLe a b = true) (ordenaAlertas l)
  | [] => List.Pairwise.nil
  | x :: xs => pairwise_insereOrdenado x _ (pairwise_ordenaAlertas xs)

lemma mem_ordenaAlertas : ∀ (l : List AlertaValidade) (z : AlertaValidade),
    z ∈ ordenaAlertas l ↔ z ∈ l
  | [], _ => Iff.rfl
  | x :: xs, z => by
    unfold ordenaAlertas
    rw [mem_insereOrdenado, mem_ordenaAlertas xs z]
    simp

lemma chaveLe_imp (x y : AlertaValidade) (h : chaveLe x y = true) :
    (y.status_validade = "VENCIDO" → x.status_validade = "VENCIDO") ∧
    (x.status_validade = y.status_validade →
      x.dias_para_vencer ≤ y.dias_para_vencer) := by
  unfold chaveLe chaveAlerta at h
  simp only [Bool.or_eq_true, Bool.and_eq_true, beq_iff_eq, decide_eq_true_eq,
    Bool.not_eq_true'] at h
  constructor
  · intro hy
    rcases h with ⟨h1, _⟩ | ⟨_, h2⟩
    · rw [hy] at h1
      simp only [bne_self_eq_false] at h1
      simpa using h1
    · rw [hy] at h2
      simp at h2
  · intro hxy
    rcases h with ⟨_, h2⟩ | ⟨h1, h2⟩
    · exact h2
    · rw [hxy] at h1
      rw [h1] at h2
      cases h2

/-- C5: in the sorted expiry report every `VENCIDO` entry precedes every
`PROXIMO_VENCIMENTO` entry, within each status the entries are ascending by
`dias_para_vencer`, and `dias_para_vencer` is negative exactly for the
already-expired entries. -/
theorem C5_ordenacao_alertas (s : Store) (hoje : Nat) :
    List.Pairwise (fun x y =>
      (y.status_validade = "VENCIDO" → x.status_validade = "VENCIDO") ∧
      (x.status_validade = y.status_validade →
        x.dias_para_vencer ≤ y.dias_para_vencer))
      (produtos_alerta_validade s hoje) ∧
    ∀ e ∈ produtos_alerta_validade s hoje,
      (e.status_validade = "VENCIDO" ↔ e.dias_para_vencer < 0) := by
  unfold produtos_alerta_validade
  constructor
  · exact (pairwise_ordenaAlertas _).imp (fun hab => chaveLe_imp _ _ hab)
  · intro e he
    have he2 : e ∈ alertas_validade s hoje 7 := (mem_ordenaAlertas _ e).mp he
    have h := alertas_sound s hoje 7 e he2
    rw [h.1, h.2.2.2]
    omega

/-- Witness for C5: the expired 2024-01-05 entry is in the sorted report of
the example store and its `dias_para_vencer` is negative. -/
theorem C5_ordenacao_alertas_witness :
    mkAlerta (toOrdinal 2024 1 10) areaEx pJan05 "VENCIDO" ∈
      produtos_alerta_validade lojaC4 (toOrdinal 2024 1 10) ∧
    ((mkAlerta (toOrdinal 2024 1 10) areaEx pJan05 "VENCIDO").status_validade = "VENCIDO" ↔
      (mkAlerta (toOrdinal 2024 1 10) areaEx pJan05 "VENCIDO").dias_para_vencer < 0) :=
  ⟨by decide,
   (C5_ordenacao_alertas lojaC4 (toOrdinal 2024 1 10)).2 _ (by decide)⟩

/-! ### C8: total stock by product -/

def lojaC8 : Store :=
  ⟨[areaEx, areaEx2], [catEx],
   [⟨1, "QJO", "Queijo Minas", 5, 738890, ['L', '1'], "A1"⟩,
    ⟨2, "QJO", "Queijo Minas", 5, 738890, ['L', '1'], "A2"⟩], [], 3⟩

lemma bool_eq_false_of_not {b : Bool} (h : ¬ b = true) : b = false := by
  cases b
  · rfl
  · exact absurd rfl h

lemma quantidadeDe_eq_zero (d : List (String × String × Int)) (k : String)
    (h : temChave d k = false) : quantidadeDe d k = 0 := by
  unfold quantidadeDe
  rw [List.find?_eq_none.mpr (fun x hx => by simpa using List.any_eq_false.mp h x hx)]

lemma quantidadeDe_cons (e : String × String × Int) (d : List (String × String × Int))
    (k : String) :
    quantidadeDe (e :: d) k = if e.1 == k then e.2.2 else quantidadeDe d k := by
  unfold quantidadeDe
  cases h : (e.1 == k) with
  | true => simp [List.find?, h]
  | false => simp [List.find?, h]

lemma temChave_cons (e : String × String × Int) (d : List (String × String × Int))
    (k : String) :
    temChave (e :: d) k = ((e.1 == k) || temChave d k) := by
  simp [temChave]

lemma quantidadeDe_map_add (cat : String) (q : Int) :
    ∀ (d : List (String × String × Int)) (k : String),
      quantidadeDe (d.map (fun e => if e.1 == cat then (e.1, e.2.1, e.2.2 + q) else e)) k =
        if temChave d k && (k == cat) then quantidadeDe d k + q else quantidadeDe d k
  | [], k => by simp [quantidadeDe, temChave]
  | e :: d, k => by
    rw [List.map_cons, temChave_cons, quantidadeDe_cons]
    by_cases h2 : (e.1 == cat) = true
    · rw [if_pos h2]
      by_cases h1 : (e.1 == k) = true
      · have hek : e.1 = k := by simpa using h1
        have hecat : e.1 = cat := by simpa using h2
        have hkcat : (k == cat) = true := by
          rw [← hek]
          exact h2
        rw [quantidadeDe_cons]
        simp [h1, hkcat]
      · rw [quantidadeDe_cons]
        simp only [h1, Bool.false_eq_true, if_false, Bool.false_or]
        exact quantidadeDe_map_add cat q d k
    · rw [if_neg h2]
      by_cases h1 : (e.1 == k) = true
      · have hek : e.1 = k := by simpa using h1
        have hkcat : (k == cat) = false := by
          cases hkc : (k == cat) with
          | false => rfl
          | true =>
            exfalso
            have : k = cat := by simpa using hkc
            rw [← hek] at this
            rw [this] at h2
            simp at h2
        rw [quantidadeDe_cons]
        simp [h1, hkcat]
      · rw [quantidadeDe_cons]
        simp only [h1, Bool.false_eq_true, if_false, Bool.false_or]
        exact quantidadeDe_map_add cat q d k

lemma quantidadeDe_append_single (x : String × String × Int) :
    ∀ (d : List (String × String × Int)) (k : String),
      quantidadeDe (d ++ [x]) k =
        if temChave d k then quantidadeDe d k else (if x.1 == k then x.2.2 else 0)
  | [], k => by
    simp only [List.nil_append, temChave, List.any_nil, Bool.false_eq_true, if_false]
    rw [quantidadeDe_cons]
    rfl
  | e :: d, k => by
    rw [List.cons_append, quantidadeDe_cons, quantidadeDe_cons, temChave_cons]
    by_cases h1 : (e.1 == k) = true
    · simp [h1]
    · simp only [h1, Bool.false_eq_true, if_false, Bool.false_or]
      exact quantidadeDe_append_single x d k

lemma temChave_map_keys (cat : String) (q : Int) :
    ∀ (d : List (String × String × Int)) (k : String),
      temChave (d.map (fun e => if e.1 == cat then (e.1, e.2.1, e.2.2 + q) else e)) k =
        temChave d k
  | [], _ => rfl
  | e :: d, k => by
    rw [List.map_cons, temChave_cons, temChave_cons, temChave_map_keys cat q d k]
    by_cases h2 : (e.1 == cat) = true
    · rw [if_pos h2]
    · rw [if_neg h2]

lemma quantidadeDe_estoquePasso (d : List (String × String × Int)) (p : ProdutoLacteo)
    (k : String) :
    quantidadeDe (estoquePasso d p) k =
      quantidadeDe d k + (if p.id_catalogo_produto == k then p.quantidade else 0) := by
  unfold estoquePasso
  by_cases hc : temChave d p.id_catalogo_produto = true
  · rw [if_pos hc, quantidadeDe_map_add]
    by_cases hk : (p.id_catalogo_produto == k) = true
    · have : p.id_catalogo_produto = k := by simpa using hk
      subst this
      have hkk : (p.id_catalogo_produto == p.id_catalogo_produto) = true := by simp
      rw [hc, hkk]
      simp
    · have hkc : (k == p.id_catalogo_produto) = false := by
        cases hx : (k == p.id_catalogo_produto) with
        | false => rfl
        | true =>
          exfalso
          have : k = p.id_catalogo_produto := by simpa using hx
          rw [this] at hk
          simp at hk
      rw [hkc]
      simp [hk]
  · have hc2 : temChave d p.id_catalogo_produto = false := bool_eq_false_of_not hc
    rw [if_neg hc, quantidadeDe_append_single]
    by_cases hk : (p.id_catalogo_produto == k) = true
    · have : p.id_catalogo_produto = k := by simpa using hk
      subst this
      rw [hc2]
      simp only [Bool.false_eq_true, if_false, hk, if_true]
      rw [quantidadeDe_eq_zero d _ hc2]
      simp
    · by_cases hdk : temChave d k = true
      · rw [if_pos hdk]
        simp [hk]
      · rw [if_neg hdk]
        rw [quantidadeDe_eq_zero d k (bool_eq_false_of_not hdk)]
        simp [hk]

lemma temChave_estoquePasso (d : List (String × String × Int)) (p : ProdutoLacteo)
    (k : String) :
    temChave (estoquePasso d p) k = (temChave d k || (p.id_catalogo_produto == k)) := by
  unfold estoquePasso
  by_cases hc : temChave d p.id_catalogo_produto = true
  · rw [if_pos hc, temChave_map_keys]
    by_cases hk : (p.id_catalogo_produto == k) = true
    · have : p.id_catalogo_produto = k := by simpa using hk
      subst this
      rw [hc]
      simp
    · rw [bool_eq_false_of_not hk]
      simp
  · rw [if_neg hc]
    unfold temChave
    rw [List.any_append]
    simp

lemma quantidadeDe_foldl (ps : List ProdutoLacteo) :
    ∀ (d : List (String × String × Int)) (k : String),
      quantidadeDe (ps.foldl estoquePasso d) k =
        quantidadeDe d k +
          ((ps.filter (fun p => p.id_catalogo_produto == k)).map (fun p => p.quantidade)).sum := by
  induction ps with
  | nil => intro d k; simp
  | cons p ps ih =>
    intro d k
    rw [List.foldl_cons, ih, quantidadeDe_estoquePasso, List.filter_cons]
    by_cases hk : (p.id_catalogo_produto == k) = true
    · simp only [hk, if_true, List.map_cons, List.sum_cons]
      ring
    · simp only [hk, Bool.false_eq_true, if_false]
      ring

lemma temChave_foldl (ps : List ProdutoLacteo) :
    ∀ (d : List (String × String × Int)) (k : String),
      temChave (ps.foldl estoquePasso d) k =
        (temChave d k || ps.any (fun p => p.id_catalogo_produto == k)) := by
  induction ps with
  | nil => intro d k; simp
  | cons p ps ih =>
    intro d k
    rw [List.foldl_cons, ih, temChave_estoquePasso, List.any_cons]
    cases temChave d k <;> cases (p.id_catalogo_produto == k) <;> simp

/-- C8: for every store state, the total-stock report maps each catalog
product id to the sum of the quantities of every stock instance referencing
it across every area, and only ids with at least one instance appear; in
particular two areas each holding 5 units of `QJO` total 10. -/
theorem C8_estoque_total (s : Store) (cid : String) :
    quantidadeDe (estoque_total s) cid =
      (((todasInstancias s).filter (fun p => p.id_catalogo_produto == cid)).map
        (fun p => p.quantidade)).sum ∧
    temChave (estoque_total s) cid =
      (todasInstancias s).any (fun p => p.id_catalogo_produto == cid) ∧
    quantidadeDe (estoque_total lojaC8) "QJO" = 10 := by
  refine ⟨?_, ?_, by decide⟩
  · unfold estoque_total
    rw [quantidadeDe_foldl]
    simp [quantidadeDe]
  · unfold estoque_total
    rw [temChave_foldl]
    simp [temChave]

end ArmazemHist
